import Mathlib

/-!
Verification of the Lightdash CSV-export pipeline and explore access filter.

Shallow embedding of:
  * `CsvService.couldBeTruncated`, `CsvService.generateFileId`,
    `CsvService.convertRowToCsv`, `CsvService.writeRowsToFile`,
    `CsvService.convertSqlQueryResultsToCsv`, `convertSqlToCsv`,
    `CsvService.getCsvForChart` (its pure result-shaping slice)
    from `services/CsvService/CsvService.ts`;
  * `hasUserAttribute`, `hasUserAttributes`, `filterDimensionsFromExplore`
    from `services/UserAttributesService/UserAttributeUtils.ts`.

JavaScript objects are modelled as association lists (`List (String × _)`),
JavaScript property access `o[k]` as `List.lookup` (absent keys give
`undefined`, modelled by an explicit `CellValue.vundefined` constructor or
`Option`), and JavaScript numbers as `Int`/`Nat` (all quantities involved are
integers and stay far below 2^53, where JS integer arithmetic is exact).
-/

namespace Lightdash

/-! ### JS helpers -/

/-- JS truthiness of an optional string: `undefined` and `""` are falsy
(used to model `customLabels[id] || fallback` / `if (customLabels[id])`). -/
def jsStrOr (o : Option String) (fallback : String) : String :=
  match o with
  | some s => if s = "" then fallback else s
  | none => fallback

/-- JS `Array.prototype.indexOf`: index of the first occurrence, `-1` if absent. -/
def jsIndexOf (l : List String) (x : String) : Int :=
  match l.findIdx? (fun y => y = x) with
  | some n => (n : Int)
  | none => -1

/-! ### `generateFileId` (CsvService.ts)

```ts
static generateFileId(fileName, truncated = false, time = moment()) {
    const timestamp = time.format('YYYY-MM-DD-HH-mm-ss-SSSS');
    const sanitizedFileName = fileName
        .toLowerCase()
        .replace(/[^a-z0-9]/gi, '_')
        .replace(/_{2,}/g, '_');
    const fileId = `csv-${truncated ? 'incomplete_results-' : ''}${sanitizedFileName}-${timestamp}.csv`;
    return fileId;
}
```
-/

/-- ASCII lower-casing of a character, as `String.prototype.toLowerCase`
acts on ASCII letters. -/
def jsToLower (c : Char) : Char :=
  if 'A' ≤ c ∧ c ≤ 'Z' then Char.ofNat (c.toNat + 32) else c

/-- The character class `[a-z0-9]` with the `i` flag: ASCII letters and digits. -/
def isAlnumCI (c : Char) : Bool :=
  ('a' ≤ c && c ≤ 'z') || ('A' ≤ c && c ≤ 'Z') || ('0' ≤ c && c ≤ '9')

/-- Embeds `.replace(/[^a-z0-9]/gi, '_')`: every character outside the class
becomes one underscore. -/
def replaceNonAlnum (l : List Char) : List Char :=
  l.map (fun c => if isAlnumCI c then c else '_')

/-- Embeds `.replace(/_{2,}/g, '_')`: every maximal run of two or more underscores
collapses to a single underscore (implemented by dropping an underscore
whenever another underscore follows it). -/
def collapseUnderscores : List Char → List Char
  | [] => []
  | [c] => [c]
  | c1 :: c2 :: rest =>
      if c1 = '_' && c2 = '_' then collapseUnderscores (c2 :: rest)
      else c1 :: collapseUnderscores (c2 :: rest)

/-- The sanitization pipeline of `generateFileId`:
lower-case, then replace non-alphanumerics by `_`, then collapse `__+`. -/
def sanitizeFileName (s : String) : String :=
  String.mk (collapseUnderscores (replaceNonAlnum (s.data.map jsToLower)))

/-- A timestamp as far as `moment.format('YYYY-MM-DD-HH-mm-ss-SSSS')` reads it:
calendar fields plus a four-digit fractional-second field. -/
structure MomentTime where
  year : Nat
  month : Nat
  day : Nat
  hour : Nat
  minute : Nat
  second : Nat
  frac4 : Nat
deriving DecidableEq, Repr

/-- Zero-left-pad the decimal rendering of `n` to width `w`. -/
def padNat (w : Nat) (n : Nat) : String :=
  let s := toString n
  String.mk (List.replicate (w - s.length) '0') ++ s

/-- Embeds `time.format('YYYY-MM-DD-HH-mm-ss-SSSS')`. -/
def formatFileTimestamp (t : MomentTime) : String :=
  padNat 4 t.year ++ "-" ++ padNat 2 t.month ++ "-" ++ padNat 2 t.day ++ "-" ++
    padNat 2 t.hour ++ "-" ++ padNat 2 t.minute ++ "-" ++ padNat 2 t.second ++ "-" ++
    padNat 4 t.frac4

/-- Embeds `CsvService.generateFileId` (the impure default `moment()` is passed
explicitly as `time`). -/
def generateFileId (fileName : String) (truncated : Bool) (time : MomentTime) : String :=
  let timestamp := formatFileTimestamp time
  let sanitizedFileName := sanitizeFileName fileName
  "csv-" ++ (if truncated then "incomplete_results-" else "") ++
    sanitizedFileName ++ "-" ++ timestamp ++ ".csv"

/-- The spec's wording of sanitization: after lower-casing, every maximal run
of non-alphanumeric characters is replaced by a single underscore (a run is
consumed left to right; a non-alphanumeric character followed by another
non-alphanumeric character is absorbed into its run, and each run emits
exactly one `_`). -/
def runsReplace : List Char → List Char
  | [] => []
  | [c] => if isAlnumCI c then [c] else ['_']
  | c :: d :: rest =>
      if isAlnumCI c then c :: runsReplace (d :: rest)
      else if isAlnumCI d then '_' :: runsReplace (d :: rest)
      else runsReplace (d :: rest)

/-- Spec-side sanitization: lower-case, then replace each run of
non-alphanumerics by one underscore. -/
def sanitizeSpec (s : String) : String :=
  String.mk (runsReplace (s.data.map jsToLower))

/-- The code's two-regex pipeline coincides with the spec's
run-replacement description, on every character list. -/
theorem collapse_replace_eq_runs :
    ∀ l : List Char, collapseUnderscores (replaceNonAlnum l) = runsReplace l
  | [] => rfl
  | [c] => by
      by_cases h : isAlnumCI c = true
      · have hne : c ≠ '_' := by
          intro hc; subst hc; simp [isAlnumCI] at h
        simp [replaceNonAlnum, collapseUnderscores, runsReplace, h]
      · simp [replaceNonAlnum, collapseUnderscores, runsReplace, h]
  | c :: d :: rest => by
      have ih := collapse_replace_eq_runs (d :: rest)
      by_cases hc : isAlnumCI c = true
      · have hne : c ≠ '_' := by
          intro h; subst h; simp [isAlnumCI] at hc
        simp only [replaceNonAlnum, List.map_cons] at ih ⊢
        simp only [hc, if_pos]
        rw [collapseUnderscores, runsReplace]
        simp only [hc, if_pos, if_true]
        rw [if_neg (by simp [hne])]
        exact congrArg (c :: ·) ih
      · by_cases hd : isAlnumCI d = true
        · have hdne : d ≠ '_' := by
            intro h; subst h; simp [isAlnumCI] at hd
          simp only [replaceNonAlnum, List.map_cons, hd, if_true] at ih
          simp only [replaceNonAlnum, List.map_cons]
          simp only [hc, if_neg, Bool.false_eq_true, if_false, hd, if_pos]
          rw [collapseUnderscores, runsReplace]
          simp only [hc, hd, Bool.false_eq_true, if_false, if_true]
          rw [if_neg (by simp [hdne])]
          exact congrArg ('_' :: ·) ih
        · simp only [replaceNonAlnum, List.map_cons, hd, Bool.false_eq_true, if_false] at ih
          simp only [replaceNonAlnum, List.map_cons]
          simp only [hc, hd, Bool.false_eq_true, if_false]
          rw [collapseUnderscores, runsReplace]
          simp only [hc, hd, Bool.false_eq_true, if_false]
          rw [if_pos (by simp)]
          exact ih

/-! ### Cell values and rows

Warehouse rows are JS objects `Record<string, any>`; we model the values
that flow through the CSV pipeline. -/

/-- A date/time payload (a JS `Date` / moment-parseable value), as far as the
`YYYY-MM-DD HH:mm:ss` and `YYYY-MM-DD` renderings read it. -/
structure DateTimeValue where
  year : Nat
  month : Nat
  day : Nat
  hour : Nat
  minute : Nat
  second : Nat
deriving DecidableEq, Repr

/-- A JS value in a result row: `null`, `undefined` (absent property),
string, integer number, boolean, or a date/time payload. -/
inductive CellValue where
  | vnull
  | vundefined
  | vstr (s : String)
  | vnum (n : Int)
  | vbool (b : Bool)
  | vdatetime (dt : DateTimeValue)
deriving DecidableEq, Repr

/-- A result row: a JS object, field id → value. -/
abbrev Row : Type := List (String × CellValue)

/-- JS property access `row[id]`: `undefined` when the key is absent. -/
def jsGet (row : Row) (id : String) : CellValue :=
  match List.lookup id row with
  | some v => v
  | none => CellValue.vundefined

/-- Embeds `moment(data).format('YYYY-MM-DD HH:mm:ss')`. Only date/time payloads
are given a meaningful rendering; moment's coercion of other payloads is
not modelled (the claims never constrain it). -/
def momentFormatTimestamp : CellValue → String
  | CellValue.vdatetime dt =>
      padNat 4 dt.year ++ "-" ++ padNat 2 dt.month ++ "-" ++ padNat 2 dt.day ++ " " ++
        padNat 2 dt.hour ++ ":" ++ padNat 2 dt.minute ++ ":" ++ padNat 2 dt.second
  | _ => "Invalid date"

/-- Embeds `moment(data).format('YYYY-MM-DD')`. -/
def momentFormatDate : CellValue → String
  | CellValue.vdatetime dt =>
      padNat 4 dt.year ++ "-" ++ padNat 2 dt.month ++ "-" ++ padNat 2 dt.day
  | _ => "Invalid date"

/-! ### `couldBeTruncated` (CsvService.ts)

```ts
couldBeTruncated(rows: Record<string, any>[]) {
    if (rows.length === 0) return false;
    const numberRows = rows.length;
    const numberColumns = Object.keys(rows[0]).length;
    const cellsLimit = this.lightdashConfig.query?.csvCellsLimit || 100000;
    return numberRows * numberColumns >= cellsLimit - numberColumns;
}
```
-/

/-- Embeds `CsvService.couldBeTruncated`; `csvCellsLimit` is the configured
`lightdashConfig.query?.csvCellsLimit` (`none` = unset; `0` is falsy in JS,
so `x || 100000` defaults both). -/
def couldBeTruncated (csvCellsLimit : Option Int) (rows : List Row) : Bool :=
  if rows.length = 0 then false
  else
    let numberRows : Int := rows.length
    let numberColumns : Int := (rows.headD []).length
    let cellsLimit : Int :=
      match csvCellsLimit with
      | some n => if n = 0 then 100000 else n
      | none => 100000
    numberRows * numberColumns ≥ cellsLimit - numberColumns

/-! ### Access filter (UserAttributeUtils.ts) -/

/-- A compiled dimension, with the fields the access filter inspects or
copies: its SQL fragment and the optional `requiredAttributes` map. -/
structure Dimension where
  sql : String
  hidden : Bool
  requiredAttributes : Option (List (String × String))
deriving DecidableEq, Repr

/-- A compiled metric (never touched by the access filter). -/
structure Metric where
  sql : String
  hidden : Bool
deriving DecidableEq, Repr

/-- A compiled table: dimension map and metric map. -/
structure CompiledTable where
  dimensions : List (String × Dimension)
  metrics : List (String × Metric)
deriving DecidableEq, Repr

/-- A compiled explore: base table name plus table map. -/
structure Explore where
  baseTable : String
  tables : List (String × CompiledTable)
deriving DecidableEq, Repr

/-- Embeds `hasUserAttribute`: `userAttributes[attributeName] === value`
(an absent attribute gives `undefined`, which is `===`-unequal to any
string). -/
def hasUserAttribute (userAttributes : List (String × String))
    (attributeName value : String) : Bool :=
  List.lookup attributeName userAttributes = some value

/-- Embeds `hasUserAttributes`: no `requiredAttributes` means keep; otherwise every
entry must match the user's attributes. -/
def hasUserAttributes (requiredAttributes : Option (List (String × String)))
    (userAttributes : List (String × String)) : Bool :=
  match requiredAttributes with
  | none => true
  | some entries =>
      entries.all (fun a => hasUserAttribute userAttributes a.1 a.2)

/-- Embeds `exploreHasFilteredAttribute`. -/
def exploreHasFilteredAttribute (explore : Explore) : Bool :=
  explore.tables.any (fun table =>
    table.2.dimensions.any (fun dimension => dimension.2.requiredAttributes.isSome))

/-- Embeds `filterDimensionsFromExplore`: rebuild the explore, keeping in each table
exactly the dimensions whose `requiredAttributes` the user satisfies;
everything else (including the metric maps) is copied unchanged. -/
def filterDimensionsFromExplore (explore : Explore)
    (userAttributes : List (String × String)) : Explore :=
  { explore with
    tables := explore.tables.map (fun exploreTable =>
      (exploreTable.1,
        { exploreTable.2 with
          dimensions := exploreTable.2.dimensions.filter (fun tableDimension =>
            hasUserAttributes tableDimension.2.requiredAttributes userAttributes) })) }

/-- The spec's wording of the keep condition: either no `requiredAttributes`,
or every `(attribute, expectedValue)` entry satisfies
`userAttributes[attribute] === expectedValue`. -/
def specKeepsDimension (dimension : Dimension)
    (userAttributes : List (String × String)) : Prop :=
  dimension.requiredAttributes = none ∨
    ∃ entries, dimension.requiredAttributes = some entries ∧
      ∀ p ∈ entries, List.lookup p.1 userAttributes = some p.2

/-- Unfolding of the code's single-attribute test. -/
theorem hasUserAttribute_eq_true (u : List (String × String)) (a v : String) :
    hasUserAttribute u a v = true ↔ List.lookup a u = some v := by
  simp [hasUserAttribute]

/-- The code's keep test agrees with the spec's wording. -/
theorem hasUserAttributes_iff_specKeeps (dimension : Dimension)
    (userAttributes : List (String × String)) :
    hasUserAttributes dimension.requiredAttributes userAttributes = true ↔
      specKeepsDimension dimension userAttributes := by
  cases hreq : dimension.requiredAttributes with
  | none => simp [hreq, hasUserAttributes, specKeepsDimension]
  | some entries =>
      simp only [hreq, hasUserAttributes, specKeepsDimension, List.all_eq_true,
        hasUserAttribute_eq_true]
      constructor
      · intro h
        exact Or.inr ⟨entries, rfl, fun p hp => h p hp⟩
      · rintro (hnone | ⟨e, he, hall⟩)
        · exact Option.noConfusion hnone
        · injection he with he'
          subst he'
          exact fun p hp => hall p hp

instance (dimension : Dimension) (userAttributes : List (String × String)) :
    Decidable (specKeepsDimension dimension userAttributes) :=
  decidable_of_iff _ (hasUserAttributes_iff_specKeeps dimension userAttributes)

/-! ### Items (fields and table calculations) -/

/-- Embeds `DimensionType` from `@lightdash/common`. -/
inductive DimensionType where
  | string_type
  | number_type
  | timestamp
  | date
  | boolean
deriving DecidableEq, Repr

/-- The pieces of a `Field` the CSV pipeline reads: its semantic type,
its labels, and an optional display-format spec. -/
structure Field where
  fieldType : DimensionType
  label : String
  tableLabel : String
  format : Option String
deriving DecidableEq, Repr

/-- A table calculation: a name and a display name. -/
structure TableCalculation where
  name : String
  displayName : String
  sql : String
deriving DecidableEq, Repr

/-- An entry of the item map: `Field | TableCalculation`. -/
inductive Item where
  | field (f : Field)
  | tableCalculation (tc : TableCalculation)
deriving DecidableEq, Repr

/-- Embeds `isField` from `@lightdash/common` (discriminates the union). -/
def isField : Item → Bool
  | Item.field _ => true
  | Item.tableCalculation _ => false

/-- The semantic type of an item-map entry, when it is a field
(`isField(item) && item.type === t` tests). -/
def itemFieldType : Option Item → Option DimensionType
  | some (Item.field f) => some f.fieldType
  | _ => none

/-- A plain rendering of a raw cell value, used by the modelled formatter. -/
def rawToString : CellValue → String
  | CellValue.vnull => ""
  | CellValue.vundefined => ""
  | CellValue.vstr s => s
  | CellValue.vnum n => toString n
  | CellValue.vbool b => toString b
  | CellValue.vdatetime dt => momentFormatTimestamp (CellValue.vdatetime dt)

/-- Modelled from the spec: `formatItemValue` from `@lightdash/common` is not
under `src/`; per spec §4.6 it applies the item's declared format spec to the
value. Modelled as tagging the plain rendering with the format spec (the
claims only distinguish formatted output from raw pass-through). -/
def formatItemValue (item : Option Item) (data : CellValue) : CellValue :=
  let fmt : Option String :=
    match item with
    | some (Item.field f) => f.format
    | _ => none
  match fmt with
  | some f => CellValue.vstr (f ++ ":" ++ rawToString data)
  | none => CellValue.vstr (rawToString data)

/-! ### `convertRowToCsv` (CsvService.ts)

```ts
static convertRowToCsv(row, itemMap, onlyRaw, sortedFieldIds) {
    return sortedFieldIds.map((id) => {
        const data = row[id];
        const item = itemMap[id];
        if (data === null || data === undefined) { return data; }
        const itemIsField = isField(item);
        if (itemIsField && item.type === DimensionType.TIMESTAMP) {
            return moment(data).format('YYYY-MM-DD HH:mm:ss');
        }
        if (itemIsField && item.type === DimensionType.DATE) {
            return moment(data).format('YYYY-MM-DD');
        }
        if (onlyRaw) return data;
        return formatItemValue(item, data);
    });
}
```
-/

/-- The body of `convertRowToCsv`'s `map` for one field id. -/
def convertCell (row : Row) (itemMap : List (String × Item)) (onlyRaw : Bool)
    (id : String) : CellValue :=
  let data := jsGet row id
  let item := List.lookup id itemMap
  if data = CellValue.vnull ∨ data = CellValue.vundefined then data
  else if itemFieldType item = some DimensionType.timestamp then
    CellValue.vstr (momentFormatTimestamp data)
  else if itemFieldType item = some DimensionType.date then
    CellValue.vstr (momentFormatDate data)
  else if onlyRaw then data
  else formatItemValue item data

/-- Embeds `CsvService.convertRowToCsv`. -/
def convertRowToCsv (row : Row) (itemMap : List (String × Item)) (onlyRaw : Bool)
    (sortedFieldIds : List String) : List CellValue :=
  sortedFieldIds.map (convertCell row itemMap onlyRaw)

/-! ### `writeRowsToFile` (CsvService.ts) — the pure content it streams -/

/-- A metric query, restricted to what `writeRowsToFile` reads. -/
structure MetricQuery where
  dimensions : List String
  metrics : List String
  tableCalculations : List TableCalculation
deriving DecidableEq, Repr

/-- Embeds `[...metricQuery.metrics, ...metricQuery.dimensions,
...metricQuery.tableCalculations.map(tc => tc.name)]`. -/
def selectedFieldIdsOf (metricQuery : MetricQuery) : List String :=
  metricQuery.metrics ++ metricQuery.dimensions ++
    metricQuery.tableCalculations.map (fun tc => tc.name)

/-- Stable insertion step: place `x` after every element whose key is
strictly smaller, before the first element whose key is `≥` (so elements
already in the list that tie with `x` stay behind it — matching the
stability guarantee of `Array.prototype.sort`). -/
def insertByKey (key : String → Int) (x : String) : List String → List String
  | [] => [x]
  | y :: ys => if key y < key x then y :: insertByKey key x ys else x :: y :: ys

/-- Stable sort by an integer key, modelling
`.sort((a, b) => columnOrder.indexOf(a) - columnOrder.indexOf(b))`
(ES2019+ `Array.prototype.sort` is stable and this comparator is a
consistent total preorder on the keys). -/
def stableSortByKey (key : String → Int) : List String → List String
  | [] => []
  | x :: xs => insertByKey key x (stableSortByKey key xs)

/-- Embeds `Object.keys(rows[0]).filter(id => selectedFieldIds.includes(id))
.sort((a, b) => columnOrder.indexOf(a) - columnOrder.indexOf(b))`. -/
def sortedFieldIdsOf (rows : List Row) (metricQuery : MetricQuery)
    (columnOrder : List String) : List String :=
  stableSortByKey (jsIndexOf columnOrder)
    (((rows.headD []).map Prod.fst).filter
      (fun id => (selectedFieldIdsOf metricQuery).contains id))

/-- Modelled from the spec: `getItemLabel` from `@lightdash/common` is not
under `src/`; per spec §4.7 headers fall back to a label. Modelled as the
table label joined to the field label (table calculations use their display
name). -/
def getItemLabel : Item → String
  | Item.field f => f.tableLabel ++ " " ++ f.label
  | Item.tableCalculation tc => tc.displayName

/-- Modelled from the spec: `getItemLabelWithoutTableName` from
`@lightdash/common` is not under `src/`. Modelled as the bare field label
(table calculations use their display name). -/
def getItemLabelWithoutTableName : Item → String
  | Item.field f => f.label
  | Item.tableCalculation tc => tc.displayName

/-- The header cell for one column id: custom label if one is set (JS
truthiness: an empty custom label falls through), else the item's label,
else the id itself. -/
def csvHeaderCell (customLabels : List (String × String))
    (itemMap : List (String × Item)) (showTableNames : Bool) (id : String) : String :=
  match List.lookup id customLabels with
  | some l =>
      if l = "" then
        match List.lookup id itemMap with
        | some item =>
            if showTableNames then getItemLabel item else getItemLabelWithoutTableName item
        | none => id
      else l
  | none =>
      match List.lookup id itemMap with
      | some item =>
          if showTableNames then getItemLabel item else getItemLabelWithoutTableName item
      | none => id

/-- The CSV content `writeRowsToFile` streams into `/tmp/<fileId>`: the
emitted column ids (in order), the header row, and one converted line per
input row. -/
structure CsvFileContent where
  columns : List String
  header : List String
  body : List (List CellValue)
deriving DecidableEq, Repr

/-- Embeds `CsvService.writeRowsToFile`, restricted to its pure content: column
selection/ordering, header construction, and the row transform (the
stream/file plumbing and the returned `fileId` timestamp are I/O). -/
def writeRowsToFile (rows : List Row) (onlyRaw : Bool) (metricQuery : MetricQuery)
    (itemMap : List (String × Item)) (showTableNames : Bool)
    (customLabels : List (String × String)) (columnOrder : List String) :
    CsvFileContent :=
  let sortedFieldIds := sortedFieldIdsOf rows metricQuery columnOrder
  { columns := sortedFieldIds
    header := sortedFieldIds.map (csvHeaderCell customLabels itemMap showTableNames)
    body := rows.map (fun row => convertRowToCsv row itemMap onlyRaw sortedFieldIds) }

/-! ### `convertSqlToCsv` and the worker routing (CsvService.ts) -/

/-- Modelled from the spec: `friendlyName` from `@lightdash/common` is not
under `src/` and the spec does not constrain it beyond being a display name
for a field id; modelled as the identity renaming. -/
def friendlyName (id : String) : String := id

/-- Modelled from the spec: `isMomentInput` from `@lightdash/common` is not
under `src/`; it accepts strings, numbers, `Date`s and moments. -/
def isMomentInputV : CellValue → Bool
  | CellValue.vstr _ => true
  | CellValue.vnum _ => true
  | CellValue.vdatetime _ => true
  | _ => false

/-- Embeds `isRowValueTimestamp(value, field)`:
`isMomentInput(value) && field.type === DimensionType.TIMESTAMP`. -/
def isRowValueTimestamp (value : CellValue) (fieldType : DimensionType) : Bool :=
  isMomentInputV value && fieldType = DimensionType.timestamp

/-- Embeds `isRowValueDate(value, field)`:
`isMomentInput(value) && field.type === DimensionType.DATE`. -/
def isRowValueDate (value : CellValue) (fieldType : DimensionType) : Bool :=
  isMomentInputV value && fieldType = DimensionType.date

/-- Embeds `ApiSqlQueryResults`: field metadata (name → type) and rows. -/
structure ApiSqlQueryResults where
  fields : List (String × DimensionType)
  rows : List Row
deriving DecidableEq, Repr

/-- The `csv-stringify` encoding, modelled as comma-joined cells and
newline-joined lines (quoting is the library's concern and no claim
constrains it). -/
def csvStringify (lines : List (List String)) : String :=
  String.intercalate "\x0a" (lines.map (String.intercalate ","))

/-- Embeds `convertSqlToCsv` (module-level function in CsvService.ts): header from
the first row's keys through `customLabels[id] || friendlyName(id)`; body
pairs each field (by position) with the row's values, formatting
moment-parseable timestamp/date cells. -/
def convertSqlToCsv (results : ApiSqlQueryResults)
    (customLabels : List (String × String)) : String :=
  let csvHeader := ((results.rows.headD []).map Prod.fst).map
    (fun id => jsStrOr (List.lookup id customLabels) (friendlyName id))
  let csvBody := results.rows.map (fun row =>
    results.fields.enum.map (fun fi =>
      let rowValue := (row.map Prod.snd).getD fi.1 CellValue.vundefined
      if isRowValueTimestamp rowValue fi.2.2 then
        CellValue.vstr (momentFormatTimestamp rowValue)
      else if isRowValueDate rowValue fi.2.2 then
        CellValue.vstr (momentFormatDate rowValue)
      else rowValue))
  csvStringify (csvHeader :: csvBody.map (fun line => line.map rawToString))

/-- Where `convertSqlQueryResultsToCsv` ran the conversion: inline, or on a
background worker thread seeded with `workerData = {results, customLabels}`. -/
inductive SqlCsvRoute where
  | inline (output : String)
  | worker (results : ApiSqlQueryResults) (customLabels : List (String × String))
deriving DecidableEq, Repr

/-- Modelled from the spec: the worker script
`./dist/services/CsvService/convertSqlToCsv.js` is not under `src/`; per
spec §4.7 the worker re-runs the pure `convertSqlToCsv` logic on its
`workerData`. -/
def runWorkerConvertSqlToCsv (results : ApiSqlQueryResults)
    (customLabels : List (String × String)) : String :=
  convertSqlToCsv results customLabels

/-- Embeds `CsvService.convertSqlQueryResultsToCsv`: hand off to a worker when
`results.rows.length > 500`, otherwise convert inline. -/
def convertSqlQueryResultsToCsv (results : ApiSqlQueryResults)
    (customLabels : List (String × String)) : SqlCsvRoute :=
  if results.rows.length > 500 then SqlCsvRoute.worker results customLabels
  else SqlCsvRoute.inline (convertSqlToCsv results customLabels)

/-- Whether a route went through the background worker. -/
def usesWorker : SqlCsvRoute → Bool
  | SqlCsvRoute.worker _ _ => true
  | SqlCsvRoute.inline _ => false

/-- The CSV text a route produces (the worker's result is the modelled
worker computation). -/
def routeOutput : SqlCsvRoute → String
  | SqlCsvRoute.inline output => output
  | SqlCsvRoute.worker results customLabels => runWorkerConvertSqlToCsv results customLabels

/-! ### `getCsvForChart` (CsvService.ts) — the result-shaping slice -/

/-- The `AttachmentUrl` value `getCsvForChart` resolves with. -/
structure AttachmentUrl where
  filename : String
  path : String
  localPath : String
  truncated : Bool
deriving DecidableEq, Repr

/-- What `getCsvForChart` did after the metric query returned: bail out with
the `#no-results` sentinel without writing any file, or write a CSV file and
return its attachment. -/
inductive CsvChartOutcome where
  | noResults (attachment : AttachmentUrl)
  | fileWritten (attachment : AttachmentUrl) (content : CsvFileContent)
deriving DecidableEq, Repr

/-- Modelled from the spec: `s3Service.uploadCsv(content, fileId)` is an
external object-storage client returning a URL for the file id. -/
def s3UploadUrl (fileId : String) : String := "s3://lightdash-exports/" ++ fileId

/-- Embeds `CsvService.getCsvForChart` from the point where the metric query's rows
are known (chart lookup, dashboard-filter overlay, query execution and
analytics are I/O against collaborators and are collapsed into the
parameters; `now` is the wall-clock instant `writeRowsToFile` stamps into
the file id). -/
def getCsvForChart (chartName projectUuid siteUrl : String) (s3Enabled : Bool)
    (onlyRaw : Bool) (metricQuery : MetricQuery) (itemMap : List (String × Item))
    (showTableNames : Bool) (customLabels : List (String × String))
    (columnOrder : List String) (csvCellsLimit : Option Int) (now : MomentTime)
    (rows : List Row) : CsvChartOutcome :=
  if rows.length = 0 then
    CsvChartOutcome.noResults
      { path := "#no-results"
        filename := chartName ++ " (empty)"
        localPath := ""
        truncated := true }
  else
    let truncated := couldBeTruncated csvCellsLimit rows
    let fileId := generateFileId chartName truncated now
    let content :=
      writeRowsToFile rows onlyRaw metricQuery itemMap showTableNames customLabels columnOrder
    let path :=
      if s3Enabled then s3UploadUrl fileId
      else siteUrl ++ "/api/v1/projects/" ++ projectUuid ++ "/csv/" ++ fileId
    CsvChartOutcome.fileWritten
      { filename := chartName
        path := path
        localPath := "/tmp/" ++ fileId
        truncated := truncated }
      content

/-! ## Theorems -/

/-! ### C1: the truncation boundary -/

/-- A row with ten columns. -/
def sampleRow10 : Row :=
  [("c1", CellValue.vnum 1), ("c2", CellValue.vnum 2), ("c3", CellValue.vnum 3),
   ("c4", CellValue.vnum 4), ("c5", CellValue.vnum 5), ("c6", CellValue.vnum 6),
   ("c7", CellValue.vnum 7), ("c8", CellValue.vnum 8), ("c9", CellValue.vnum 9),
   ("c10", CellValue.vnum 10)]

/-- Evaluation of `couldBeTruncated` on `n` copies of one row. -/
theorem couldBeTruncated_replicate (n : Nat) (hn : n ≠ 0) (r : Row) :
    couldBeTruncated (some 100000) (List.replicate n r) =
      decide ((n : Int) * (r.length : Int) ≥ 100000 - (r.length : Int)) := by
  obtain ⟨m, rfl⟩ := Nat.exists_eq_succ_of_ne_zero hn
  rw [couldBeTruncated]
  simp [List.replicate_succ]

/-- C1 counterexample: with `cellsLimit = 100000` and 10 columns, 9999 rows
already give `truncated = true` (`9999 * 10 = 99990 ≥ 100000 - 10`), whereas
the claim asserts `truncated = false` there. -/
theorem couldBeTruncated_9999_rows_truncated :
    couldBeTruncated (some 100000) (List.replicate 9999 sampleRow10) = true := by
  rw [couldBeTruncated_replicate 9999 (by norm_num) sampleRow10]
  decide

/-- C1 (amended): with `cellsLimit = 100000`, `couldBeTruncated` marks a
non-empty export truncated exactly when
`rows.length * columnCount ≥ cellsLimit - columnCount`; for
`columnCount = 10` the boundary sits at 9999 rows: 9998 rows give
`truncated = false`, while 9999 rows (and 10000 rows) give
`truncated = true`. -/
theorem couldBeTruncated_boundary_spec :
    (∀ rows : List Row, rows ≠ [] →
      (couldBeTruncated (some 100000) rows = true ↔
        (rows.length : Int) * ((rows.headD []).length : Int) ≥
          100000 - ((rows.headD []).length : Int))) ∧
    couldBeTruncated (some 100000) (List.replicate 9998 sampleRow10) = false ∧
    couldBeTruncated (some 100000) (List.replicate 10000 sampleRow10) = true := by
  refine ⟨?_, ?_, ?_⟩
  · intro rows h
    have hlen : rows.length ≠ 0 := fun hc => h (List.length_eq_zero.mp hc)
    rw [couldBeTruncated, if_neg hlen]
    simp
  · rw [couldBeTruncated_replicate 9998 (by norm_num) sampleRow10]
    decide
  · rw [couldBeTruncated_replicate 10000 (by norm_num) sampleRow10]
    decide

/-- C1 witness: the amended boundary rule, instantiated at a one-row input. -/
theorem couldBeTruncated_boundary_spec_witness :
    couldBeTruncated (some 100000) [sampleRow10] = true ↔
      ((List.length [sampleRow10] : Int) * ((List.headD [sampleRow10] []).length : Int) ≥
        100000 - ((List.headD [sampleRow10] []).length : Int)) :=
  couldBeTruncated_boundary_spec.1 [sampleRow10] (by decide)

/-! ### C2: the file id convention -/

/-- The fixed timestamp of the spec's example,
`2024-01-02T03:04:05.0006` as read by `YYYY-MM-DD-HH-mm-ss-SSSS`. -/
def exampleTime : MomentTime :=
  { year := 2024, month := 1, day := 2, hour := 3, minute := 4, second := 5, frac4 := 6 }

/-- C2 counterexample: the spec's expected file id drops the underscore that
the trailing `!!` run sanitizes to; the code keeps it. -/
theorem generateFileId_example_counterexample :
    generateFileId "My Chart!!" false exampleTime ≠
      "csv-my_chart-2024-01-02-03-04-05-0006.csv" := by
  decide

/-- C2 (amended): `generateFileId` returns
`csv-[incomplete_results-]<sanitized>-<YYYY-MM-DD-HH-mm-ss-SSSS>.csv`, where
the `incomplete_results-` segment appears exactly when `truncated` is true
and sanitization lower-cases the name and replaces every run of
non-alphanumeric characters with a single underscore (a trailing run leaves
a trailing underscore); in particular the example input yields
`csv-my_chart_-2024-01-02-03-04-05-0006.csv`. -/
theorem generateFileId_format_spec :
    (∀ (fileName : String) (truncated : Bool) (time : MomentTime),
      generateFileId fileName truncated time =
        "csv-" ++ (if truncated then "incomplete_results-" else "") ++
          sanitizeSpec fileName ++ "-" ++ formatFileTimestamp time ++ ".csv") ∧
    generateFileId "My Chart!!" false exampleTime =
      "csv-my_chart_-2024-01-02-03-04-05-0006.csv" := by
  constructor
  · intro fileName truncated time
    rw [generateFileId, sanitizeFileName, sanitizeSpec,
      collapse_replace_eq_runs (fileName.data.map jsToLower)]
  · decide

/-! ### C3: what the access filter keeps -/

/-- C3: in every table of the filtered explore, a dimension entry survives
iff it was in the original table and either declares no
`requiredAttributes` or every `(attribute, expectedValue)` entry satisfies
`userAttributes[attribute] === expectedValue` (so a required attribute
absent from the user's map excludes the dimension, since its lookup is
`none ≠ some expectedValue`); the table's name and its metric map are
returned unchanged. -/
theorem filterDimensionsFromExplore_keeps_iff (e : Explore)
    (attrs : List (String × String)) (i : Nat) (tn : String) (t : CompiledTable)
    (ht : e.tables.get? i = some (tn, t)) :
    ∃ t' : CompiledTable,
      (filterDimensionsFromExplore e attrs).tables.get? i = some (tn, t') ∧
      t'.metrics = t.metrics ∧
      ∀ nd : String × Dimension,
        nd ∈ t'.dimensions ↔ nd ∈ t.dimensions ∧ specKeepsDimension nd.2 attrs := by
  refine ⟨{ t with dimensions := List.filter (fun td => hasUserAttributes td.2.requiredAttributes attrs) t.dimensions }, ?_, rfl, ?_⟩
  · rw [filterDimensionsFromExplore]
    simp only [List.get?_map, ht]
    rfl
  · intro nd
    rw [List.mem_filter, hasUserAttributes_iff_specKeeps nd.2 attrs]

/-- A dimension without access restriction. -/
def sampleStatusDim : Dimension :=
  { sql := "${TABLE}.status", hidden := false, requiredAttributes := none }

/-- A dimension restricted to users whose `role` attribute is `admin`. -/
def sampleCostDim : Dimension :=
  { sql := "${TABLE}.cost", hidden := false, requiredAttributes := some [("role", "admin")] }

/-- A table with one open and one restricted dimension, plus a metric. -/
def sampleOrdersTable : CompiledTable :=
  { dimensions := [("status", sampleStatusDim), ("cost", sampleCostDim)],
    metrics := [("count", { sql := "COUNT(*)", hidden := false })] }

/-- A one-table explore. -/
def sampleExplore : Explore :=
  { baseTable := "orders", tables := [("orders", sampleOrdersTable)] }

/-- C3 witness: the filter characterization at a two-dimension table, for a
user whose `role` attribute is `viewer`. -/
theorem filterDimensionsFromExplore_keeps_iff_witness :
    ∃ t' : CompiledTable,
      (filterDimensionsFromExplore sampleExplore [("role", "viewer")]).tables.get? 0 =
          some ("orders", t') ∧
      t'.metrics = sampleOrdersTable.metrics ∧
      ∀ nd : String × Dimension,
        nd ∈ t'.dimensions ↔
          nd ∈ sampleOrdersTable.dimensions ∧ specKeepsDimension nd.2 [("role", "viewer")] :=
  filterDimensionsFromExplore_keeps_iff sampleExplore [("role", "viewer")] 0 "orders"
    sampleOrdersTable (by rfl)

/-! ### C4: access-filter idempotence -/

/-- C4: applying the access filter twice with the same user attributes gives
the same explore as applying it once. -/
theorem filterDimensionsFromExplore_idempotent (e : Explore)
    (attrs : List (String × String)) :
    filterDimensionsFromExplore (filterDimensionsFromExplore e attrs) attrs =
      filterDimensionsFromExplore e attrs := by
  unfold filterDimensionsFromExplore
  simp only [List.map_map, Explore.mk.injEq, true_and]
  refine List.map_congr_left ?_
  intro p _
  simp only [Function.comp_apply, Prod.mk.injEq, CompiledTable.mk.injEq, true_and, and_true]
  rw [List.filter_filter]
  exact List.filter_congr (fun a _ => by simp)

/-! ### C6: worker routing for SQL-query exports -/

/-- C6: `convertSqlQueryResultsToCsv` converts inline exactly when
`results.rows.length ≤ 500`, hands off to the background worker exactly when
`results.rows.length > 500`, and either way the produced CSV is
`convertSqlToCsv` applied to the same results and custom labels (the worker
re-runs the same conversion on the same `workerData`). -/
theorem convertSqlQueryResultsToCsv_routing (results : ApiSqlQueryResults)
    (customLabels : List (String × String)) :
    (usesWorker (convertSqlQueryResultsToCsv results customLabels) = false ↔
      results.rows.length ≤ 500) ∧
    (usesWorker (convertSqlQueryResultsToCsv results customLabels) = true ↔
      results.rows.length > 500) ∧
    routeOutput (convertSqlQueryResultsToCsv results customLabels) =
      convertSqlToCsv results customLabels := by
  unfold convertSqlQueryResultsToCsv
  by_cases h : results.rows.length > 500
  · simp [h, usesWorker, routeOutput, runWorkerConvertSqlToCsv, Nat.not_le_of_lt h]
  · simp [h, usesWorker, routeOutput, Nat.le_of_not_lt h]

/-! ### C8: null/undefined pass-through in `convertRowToCsv` -/

/-- C8: for every row, item map, field-id list and both values of `onlyRaw`,
a cell whose value is `null` or `undefined` (including an absent property)
is emitted unchanged, with no formatting applied. -/
theorem convertRowToCsv_null_passthrough (row : Row) (itemMap : List (String × Item))
    (onlyRaw : Bool) (sortedFieldIds : List String) (i : Nat) (id : String)
    (hid : sortedFieldIds.get? i = some id)
    (hnull : jsGet row id = CellValue.vnull ∨ jsGet row id = CellValue.vundefined) :
    (convertRowToCsv row itemMap onlyRaw sortedFieldIds).get? i = some (jsGet row id) := by
  rw [convertRowToCsv, List.get?_map, hid, Option.map_some']
  rcases hnull with h | h <;> simp [convertCell, h]

/-- C8 witness: a row whose `paid_at` property is `null` and whose `coupon`
property is absent, exported raw and formatted. -/
theorem convertRowToCsv_null_passthrough_witness :
    (convertRowToCsv [("paid_at", CellValue.vnull)] [] true ["paid_at"]).get? 0 =
      some (jsGet [("paid_at", CellValue.vnull)] "paid_at") ∧
    (convertRowToCsv [("paid_at", CellValue.vnull)] [] false ["paid_at", "coupon"]).get? 1 =
      some (jsGet [("paid_at", CellValue.vnull)] "coupon") :=
  ⟨convertRowToCsv_null_passthrough [("paid_at", CellValue.vnull)] [] true ["paid_at"] 0
      "paid_at" (by rfl) (Or.inl (by rfl)),
    convertRowToCsv_null_passthrough [("paid_at", CellValue.vnull)] [] false
      ["paid_at", "coupon"] 1 "coupon" (by rfl) (Or.inr (by rfl))⟩

/-! ### C9: timestamp/date formatting wins over `onlyRaw` -/

/-- C9: with `onlyRaw = true`, a non-null cell of a field of type TIMESTAMP
is still rendered through `YYYY-MM-DD HH:mm:ss` and one of a field of type
DATE through `YYYY-MM-DD` (the date branches run before the `onlyRaw`
branch); the raw pass-through applies exactly to non-null cells of fields of
the other types. -/
theorem convertRowToCsv_onlyRaw_still_formats_dates (row : Row)
    (itemMap : List (String × Item)) (sortedFieldIds : List String) (i : Nat)
    (id : String) (f : Field)
    (hid : sortedFieldIds.get? i = some id)
    (hitem : List.lookup id itemMap = some (Item.field f))
    (hdata : jsGet row id ≠ CellValue.vnull ∧ jsGet row id ≠ CellValue.vundefined) :
    (f.fieldType = DimensionType.timestamp →
      (convertRowToCsv row itemMap true sortedFieldIds).get? i =
        some (CellValue.vstr (momentFormatTimestamp (jsGet row id)))) ∧
    (f.fieldType = DimensionType.date →
      (convertRowToCsv row itemMap true sortedFieldIds).get? i =
        some (CellValue.vstr (momentFormatDate (jsGet row id)))) ∧
    (f.fieldType ≠ DimensionType.timestamp → f.fieldType ≠ DimensionType.date →
      (convertRowToCsv row itemMap true sortedFieldIds).get? i =
        some (jsGet row id)) := by
  rw [convertRowToCsv, List.get?_map, hid, Option.map_some']
  refine ⟨fun hts => ?_, fun hdt => ?_, fun hnts hndt => ?_⟩
  · simp [convertCell, hitem, itemFieldType, hdata.1, hdata.2, hts]
  · simp [convertCell, hitem, itemFieldType, hdata.1, hdata.2, hdt]
  · simp [convertCell, hitem, itemFieldType, hdata.1, hdata.2, hnts, hndt]

/-- A sample timestamp payload, `2023-07-14 09:08:07`. -/
def sampleInstant : DateTimeValue :=
  { year := 2023, month := 7, day := 14, hour := 9, minute := 8, second := 7 }

/-- C9 witness: a raw export still formats a TIMESTAMP cell. -/
theorem convertRowToCsv_onlyRaw_still_formats_dates_witness :
    (convertRowToCsv [("created", CellValue.vdatetime sampleInstant)]
        [("created", Item.field
          { fieldType := DimensionType.timestamp, label := "Created", tableLabel := "Orders",
            format := none })] true ["created"]).get? 0 =
      some (CellValue.vstr
        (momentFormatTimestamp (jsGet [("created", CellValue.vdatetime sampleInstant)] "created"))) :=
  (convertRowToCsv_onlyRaw_still_formats_dates
      [("created", CellValue.vdatetime sampleInstant)]
      [("created", Item.field
        { fieldType := DimensionType.timestamp, label := "Created", tableLabel := "Orders",
          format := none })] ["created"] 0 "created"
      { fieldType := DimensionType.timestamp, label := "Created", tableLabel := "Orders",
        format := none }
      (by rfl) (by rfl) (by constructor <;> decide)).1 (by rfl)

/-! ### C10: zero-row chart export -/

/-- C10: when the metric query returns zero rows, `getCsvForChart` writes no
file and returns the sentinel attachment
`{path: '#no-results', filename: '<chart name> (empty)', localPath: '',
truncated: true}`; and `couldBeTruncated` reports `false` for the empty row
set. -/
theorem getCsvForChart_empty_sentinel (chartName projectUuid siteUrl : String)
    (s3Enabled onlyRaw : Bool) (metricQuery : MetricQuery)
    (itemMap : List (String × Item)) (showTableNames : Bool)
    (customLabels : List (String × String)) (columnOrder : List String)
    (csvCellsLimit : Option Int) (now : MomentTime) (rows : List Row)
    (h : rows.length = 0) :
    getCsvForChart chartName projectUuid siteUrl s3Enabled onlyRaw metricQuery itemMap
        showTableNames customLabels columnOrder csvCellsLimit now rows =
      CsvChartOutcome.noResults
        { path := "#no-results", filename := chartName ++ " (empty)",
          localPath := "", truncated := true } ∧
    couldBeTruncated csvCellsLimit rows = false := by
  constructor
  · rw [getCsvForChart, if_pos h]
  · unfold couldBeTruncated
    rw [if_pos h]

/-- C10 witness: a concrete zero-row export. -/
theorem getCsvForChart_empty_sentinel_witness :
    getCsvForChart "Revenue" "proj-1" "https://demo.lightdash.com" false false
        { dimensions := [], metrics := [], tableCalculations := [] } [] true [] []
        (some 100000) exampleTime [] =
      CsvChartOutcome.noResults
        { path := "#no-results", filename := "Revenue" ++ " (empty)",
          localPath := "", truncated := true } ∧
    couldBeTruncated (some 100000) [] = false :=
  getCsvForChart_empty_sentinel "Revenue" "proj-1" "https://demo.lightdash.com" false false
    { dimensions := [], metrics := [], tableCalculations := [] } [] true [] []
    (some 100000) exampleTime [] (by rfl)

/-! ### C7: column selection, ordering and headers in `writeRowsToFile` -/

/-- Inserting never loses or invents elements. -/
theorem mem_insertByKey (key : String → Int) (x a : String) :
    ∀ l : List String, a ∈ insertByKey key x l ↔ a = x ∨ a ∈ l
  | [] => by simp [insertByKey]
  | y :: ys => by
      rw [insertByKey]
      by_cases h : key y < key x
      · rw [if_pos h]
        simp only [List.mem_cons, mem_insertByKey key x a ys]
        tauto
      · rw [if_neg h]
        simp only [List.mem_cons]

/-- Inserting into a key-sorted list keeps it key-sorted. -/
theorem pairwise_insertByKey (key : String → Int) (x : String) :
    ∀ l : List String, List.Pairwise (fun a b => key a ≤ key b) l →
      List.Pairwise (fun a b => key a ≤ key b) (insertByKey key x l)
  | [], _ => by simp [insertByKey]
  | y :: ys, h => by
      rw [insertByKey]
      rcases List.pairwise_cons.mp h with ⟨hy, hys⟩
      by_cases hlt : key y < key x
      · rw [if_pos hlt]
        refine List.pairwise_cons.mpr ⟨?_, pairwise_insertByKey key x ys hys⟩
        intro z hz
        rcases (mem_insertByKey key x z ys).mp hz with rfl | hz'
        · exact le_of_lt hlt
        · exact hy z hz'
      · rw [if_neg hlt]
        refine List.pairwise_cons.mpr ⟨?_, h⟩
        intro z hz
        rcases List.mem_cons.mp hz with rfl | hz'
        · exact le_of_not_lt hlt
        · exact le_trans (le_of_not_lt hlt) (hy z hz')

/-- The stable sort produces a key-sorted list. -/
theorem pairwise_stableSortByKey (key : String → Int) :
    ∀ l : List String, List.Pairwise (fun a b => key a ≤ key b) (stableSortByKey key l)
  | [] => List.Pairwise.nil
  | x :: xs => pairwise_insertByKey key x _ (pairwise_stableSortByKey key xs)

/-- The stable sort preserves membership. -/
theorem mem_stableSortByKey (key : String → Int) (a : String) :
    ∀ l : List String, a ∈ stableSortByKey key l ↔ a ∈ l
  | [] => Iff.rfl
  | x :: xs => by
      rw [stableSortByKey, mem_insertByKey, mem_stableSortByKey key a xs, List.mem_cons]

/-- C7: the emitted columns of `writeRowsToFile` are exactly the field ids of
the first row that lie in `metricQuery.metrics ∪ metricQuery.dimensions ∪
table-calculation names`; they are ordered by the caller-supplied
`columnOrder` (monotone in `columnOrder.indexOf`); and a column with no
custom label gets the item's label as header, or the id itself when the item
map has no entry for it. -/
theorem writeRowsToFile_column_selection (rows : List Row) (onlyRaw : Bool)
    (metricQuery : MetricQuery) (itemMap : List (String × Item))
    (showTableNames : Bool) (customLabels : List (String × String))
    (columnOrder : List String) :
    (∀ id,
      id ∈ (writeRowsToFile rows onlyRaw metricQuery itemMap showTableNames
          customLabels columnOrder).columns ↔
        id ∈ (rows.headD []).map Prod.fst ∧ id ∈ selectedFieldIdsOf metricQuery) ∧
    List.Pairwise (fun a b => jsIndexOf columnOrder a ≤ jsIndexOf columnOrder b)
      (writeRowsToFile rows onlyRaw metricQuery itemMap showTableNames
        customLabels columnOrder).columns ∧
    ∀ i id,
      (writeRowsToFile rows onlyRaw metricQuery itemMap showTableNames
          customLabels columnOrder).columns.get? i = some id →
      List.lookup id customLabels = none →
      (writeRowsToFile rows onlyRaw metricQuery itemMap showTableNames
          customLabels columnOrder).header.get? i =
        some (match List.lookup id itemMap with
          | some item =>
              if showTableNames then getItemLabel item else getItemLabelWithoutTableName item
          | none => id) := by
  refine ⟨?_, ?_, ?_⟩
  · intro id
    show id ∈ sortedFieldIdsOf rows metricQuery columnOrder ↔ _
    rw [sortedFieldIdsOf, mem_stableSortByKey, List.mem_filter]
    simp [List.elem_iff]
  · exact pairwise_stableSortByKey (jsIndexOf columnOrder) _
  · intro i id hcol hnone
    show (List.map (csvHeaderCell customLabels itemMap showTableNames)
        (sortedFieldIdsOf rows metricQuery columnOrder)).get? i = _
    rw [List.get?_map]
    rw [show (sortedFieldIdsOf rows metricQuery columnOrder).get? i = some id from hcol]
    rw [Option.map_some']
    simp [csvHeaderCell, hnone]

/-- A sample result row for the witness. -/
def wRow : Row :=
  [("orders_status", CellValue.vstr "complete"), ("orders_count", CellValue.vnum 5),
   ("internal_col", CellValue.vnum 1)]

/-- A sample metric query selecting one dimension and one metric. -/
def wMetricQuery : MetricQuery :=
  { dimensions := ["orders_status"], metrics := ["orders_count"], tableCalculations := [] }

/-- C7 witness: the header fallback at the first emitted column of a
concrete export with no custom labels and an empty item map. -/
theorem writeRowsToFile_column_selection_witness :
    (writeRowsToFile [wRow] false wMetricQuery [] true []
        ["orders_status", "orders_count"]).header.get? 0 =
      some (match List.lookup "orders_status" ([] : List (String × Item)) with
        | some item => if true then getItemLabel item else getItemLabelWithoutTableName item
        | none => "orders_status") :=
  (writeRowsToFile_column_selection [wRow] false wMetricQuery [] true []
      ["orders_status", "orders_count"]).2.2 0 "orders_status" (by rfl) (by rfl)

end Lightdash
